import Mathlib

/-!
Verification of `src/Mod/Path/PathScripts/PathSanity.py` (FreeCAD Path workbench).

The module builds a "setup report" for a CAM job: it summarizes the job's
host-object graph into per-section dictionaries, accumulates advisory notes
("squawks"), renders the sections into an asciidoc template and publishes the
result through an external converter.

This file is a shallow embedding of that module.  Python dictionaries are
modelled as insertion-ordered association lists over a dynamic value type
`PyVal` (Python 3.7+ dicts preserve insertion order); fallible dictionary
indexing (`KeyError`) and string coercion (`TypeError`) are modelled in the
`Except String` monad; host attributes read by the module are fields of small
record types; floating point feed/speed values compared against the exact
literal `0.0` are modelled as rationals; the timestamp `datetime.now()` that
Python evaluates once when the `class` statement executes is passed in as the
fixed string `classDefDate`.
-/

namespace PathSanity

/-- A dynamic Python value: the module only stores strings, lists and dicts
in its section data. -/
inductive PyVal where
  | str : String → PyVal
  | list : List PyVal → PyVal
  | dict : List (String × PyVal) → PyVal

/-- A Python dict with string keys, as an insertion-ordered association list. -/
abbrev PyDict := List (String × PyVal)

/-- Python `d[k] = v`: update in place if the key exists, else append. -/
def dictSet (d : PyDict) (k : String) (v : PyVal) : PyDict :=
  if (d.lookup k).isSome then
    d.map (fun p => if p.1 == k then (k, v) else p)
  else
    d ++ [(k, v)]

/-- Python `d.setdefault(k, v)`: return the stored value if the key exists,
else insert `v` and return it. -/
def dictSetdefault (d : PyDict) (k : String) (v : PyVal) : PyVal × PyDict :=
  match d.lookup k with
  | some w => (w, d)
  | none => (v, d ++ [(k, v)])

/-- Python `d[k]` for reading: raises `KeyError` when the key is absent. -/
def pyGet (d : PyDict) (k : String) : Except String PyVal :=
  match d.lookup k with
  | some v => Except.ok v
  | none => Except.error ("KeyError: " ++ k)

/-- Using a value where `str + value` is evaluated: non-strings raise
`TypeError` in Python. -/
def asStr : PyVal → Except String String
  | PyVal.str s => Except.ok s
  | _ => Except.error "TypeError: can only concatenate str"

/-- Iterating a value as a Python list. -/
def asList : PyVal → Except String (List PyVal)
  | PyVal.list l => Except.ok l
  | _ => Except.error "TypeError: not a list"

/-- Indexing into a value as a Python dict. -/
def asDict : PyVal → Except String PyDict
  | PyVal.dict d => Except.ok d
  | _ => Except.error "TypeError: not a dict"

/-- `d[k]` followed by use as a string. -/
def getStr (d : PyDict) (k : String) : Except String String := do
  asStr (← pyGet d k)

/-- `d[k]` followed by use as a dict. -/
def getDict (d : PyDict) (k : String) : Except String PyDict := do
  asDict (← pyGet d k)

/-- `d[k]` followed by use as a list. -/
def getList (d : PyDict) (k : String) : Except String (List PyVal) := do
  asList (← pyGet d k)

/-- Python `"...".format(v)` stringifies any value and never raises.  The
renderer only ever formats strings; container reprs are abbreviated. -/
def pyFormat : PyVal → String
  | PyVal.str s => s
  | PyVal.list _ => "[...]"
  | PyVal.dict _ => "\x7b...\x7d"

/-- `translate(context, text)` wraps `QCoreApplication.translate`; with no
translation catalog loaded it returns the text unchanged. -/
def translate (_context text : String) : String := text

/-- The apostrophe character, used in several advisory notes. -/
def apos : String := String.singleton (Char.ofNat 39)

/-! ## The squawk log (`CommandPathSanity.squawk`) -/

/-- One advisory record, as appended to `squawkData["items"]`:
`{"Date": ..., "Operator": ..., "Note": ..., "squawkType": ...}`. -/
structure SquawkItem where
  Date : String
  Operator : String
  Note : String
  squawkType : String
deriving DecidableEq

/-- The valid severities accepted by `squawk`. -/
def validSquawkTypes : List String := ["NOTE", "WARNING", "ERROR", "TIP"]

/-- `squawk(self, operator, note, date=datetime.now(), squawkType="NOTE")`.

`classDefDate` is the value of the default argument `datetime.now()`, which
Python evaluates exactly once, when the `class CommandPathSanity` statement
executes; a call that omits `date` (modelled as `date = none`) uses that
stored value.  An invalid severity is replaced by `"NOTE"`; the record is
appended to the item list. -/
def squawk (classDefDate : String) (items : List SquawkItem)
    (operator note : String) (date : Option String) (squawkType : String) :
    List SquawkItem :=
  let sType := if squawkType ∈ validSquawkTypes then squawkType else "NOTE"
  items ++ [{ Date := date.getD classDefDate, Operator := operator,
              Note := note, squawkType := sType }]

/-! ## Selection guard (`IsActive` / `Activated`) -/

/-- One entry of `FreeCADGui.Selection.getSelectionEx()`: the only fact the
guard reads about the selected object is whether its `Proxy` is an
`ObjectJob`. -/
structure SelObj where
  isJob : Bool
deriving DecidableEq

/-- `IsActive`: `obj = FreeCADGui.Selection.getSelectionEx()[0].Object;
return isinstance(obj.Proxy, PathScripts.PathJob.ObjectJob)`.  Indexing an
empty selection list raises `IndexError`. -/
def IsActive (sel : List SelObj) : Except String Bool :=
  match sel with
  | [] => Except.error "IndexError: list index out of range"
  | s :: _ => Except.ok s.isJob

/-- The first step of `Activated`:
`obj = FreeCADGui.Selection.getSelectionEx()[0].Object`. -/
def ActivatedObject (sel : List SelObj) : Except String SelObj :=
  match sel with
  | [] => Except.error "IndexError: list index out of range"
  | s :: _ => Except.ok s

/-! ## Claims C5, C9, C10 -/

/-- Claim C5: a call to `squawk` with a severity outside
`{NOTE, WARNING, ERROR, TIP}` appends a record with severity `"NOTE"`, while
a call with a severity in that set keeps the supplied severity; in both
cases exactly one record is appended, with the given operator, note and
date. -/
theorem squawk_severity_normalization (classDefDate : String)
    (items : List SquawkItem) (operator note : String) (date : Option String)
    (squawkType : String) :
    (squawkType ∉ validSquawkTypes →
      squawk classDefDate items operator note date squawkType =
        items ++ [⟨date.getD classDefDate, operator, note, "NOTE"⟩]) ∧
    (squawkType ∈ validSquawkTypes →
      squawk classDefDate items operator note date squawkType =
        items ++ [⟨date.getD classDefDate, operator, note, squawkType⟩]) := by
  constructor
  · intro h
    simp [squawk, h]
  · intro h
    simp [squawk, h]

/-- Witness for C5: an invalid severity `"FATAL"` is normalized to `"NOTE"`,
and the valid severity `"ERROR"` is kept. -/
theorem squawk_severity_normalization_witness :
    squawk "d0" [] "PathSanity" "n" none "FATAL" =
      [⟨"d0", "PathSanity", "n", "NOTE"⟩] ∧
    squawk "d0" [] "PathSanity" "n" none "ERROR" =
      [⟨"d0", "PathSanity", "n", "ERROR"⟩] :=
  ⟨(squawk_severity_normalization "d0" [] "PathSanity" "n" none "FATAL").1
      (by decide),
   (squawk_severity_normalization "d0" [] "PathSanity" "n" none "ERROR").2
      (by decide)⟩

/-- Claim C9: with an empty selection, `IsActive` (and likewise the first
step of `Activated`) raises `IndexError` from the unguarded `[0]` indexing of
the selection list instead of returning `False`. -/
theorem isActive_empty_selection_raises :
    IsActive [] = Except.error "IndexError: list index out of range" ∧
    ActivatedObject [] = Except.error "IndexError: list index out of range" ∧
    IsActive [] ≠ Except.ok false := by
  refine ⟨rfl, rfl, ?_⟩
  intro h
  exact Except.noConfusion h

/-- Claim C10: the default date of `squawk` is the single timestamp taken
when the class body was evaluated, so any two calls that omit the `date`
argument — at any point in the process lifetime, with any log contents,
operators, notes and severities — append records carrying the identical
`Date` string. -/
theorem squawk_default_date_class_definition_time (classDefDate : String)
    (items₁ items₂ : List SquawkItem) (op₁ note₁ ty₁ op₂ note₂ ty₂ : String) :
    ((squawk classDefDate items₁ op₁ note₁ none ty₁).getLast?.map
        SquawkItem.Date) = some classDefDate ∧
    ((squawk classDefDate items₂ op₂ note₂ none ty₂).getLast?.map
        SquawkItem.Date) = some classDefDate := by
  constructor <;> simp [squawk]

/-! ## Image capture (`__makePicture`) -/

/-- A document object as seen by `__makePicture`: its (unique) internal name
and its `Visibility` flag.  All other attributes are untouched. -/
structure DocObj where
  name : String
  Visibility : Bool
deriving DecidableEq

/-- `o.Visibility = b` on the document object called `n`. -/
def setVis (doc : List DocObj) (n : String) (b : Bool) : List DocObj :=
  doc.map (fun o => if o.name == n then { o with Visibility := b } else o)

/-- `for o in obj.Document.Objects: o.Visibility = b`. -/
def setAllVis (doc : List DocObj) (b : Bool) : List DocObj :=
  doc.map (fun o => { o with Visibility := b })

/-- The document state during the capture: every object hidden, then the
target made visible. -/
def captureState (doc : List DocObj) (target : String) : List DocObj :=
  setVis (setAllVis doc false) target true

/-- `__makePicture(self, obj, imageName)`.

Saves the names of the currently visible objects, hides everything, shows
only the target, runs the viewport capture (the `aview`/`saveImage` calls,
any of which may raise — modelled by `captureRaises`), then hides the target
and re-shows the saved objects.  The source has no `try`/`finally`: an
exception raised during the capture propagates (`Except.error`) carrying the
document state at the point of the raise, with no restoration.  On normal
completion it returns the final document state and the path
`outputpath + "/" + imageName + "_t.png"`. -/
def makePicture (outputpath : String) (doc : List DocObj)
    (target imageName : String) (captureRaises : Bool) :
    Except (List DocObj) (List DocObj × String) :=
  -- visible = [o for o in obj.Document.Objects if o.Visibility]
  let visible := (doc.filter (fun o => o.Visibility)).map DocObj.name
  -- hide everything, show only the target
  let doc := captureState doc target
  let imagepath := outputpath ++ "/" ++ imageName
  -- viewport interaction and the two saveImage calls
  if captureRaises then Except.error doc else
  -- obj.Visibility = False
  let doc := setVis doc target false
  -- for o in visible: o.Visibility = True
  let doc := visible.foldl (fun d n => setVis d n true) doc
  Except.ok (doc, imagepath ++ "_t.png")

/-- The document state on whichever path `__makePicture` exits. -/
def exitState : Except (List DocObj) (List DocObj × String) → List DocObj
  | Except.error d => d
  | Except.ok (d, _) => d

/-! ## Claim C3 -/

theorem setVis_map_name (doc : List DocObj) (n : String) (b : Bool) :
    setVis doc n b =
      doc.map (fun o => if o.name = n then ⟨o.name, b⟩ else o) := by
  unfold setVis
  refine List.map_congr_left (fun o _ => ?_)
  by_cases h : o.name = n
  · simp [h]
  · simp [h]

theorem restore_foldl (names : List String) (doc : List DocObj) :
    names.foldl (fun d n => setVis d n true) doc =
      doc.map (fun o => if o.name ∈ names then ⟨o.name, true⟩ else o) := by
  induction names generalizing doc with
  | nil => simp
  | cons n ns ih =>
      rw [List.foldl_cons, ih, setVis_map_name, List.map_map]
      refine List.map_congr_left (fun o _ => ?_)
      by_cases h : o.name = n
      · by_cases h2 : o.name ∈ ns <;> simp [h, h2]
      · by_cases h2 : o.name ∈ ns <;> simp [h, h2]

theorem captureState_eq (doc : List DocObj) (target : String) :
    captureState doc target =
      doc.map (fun o => if o.name = target then ⟨o.name, true⟩
                        else ⟨o.name, false⟩) := by
  unfold captureState setAllVis
  rw [setVis_map_name, List.map_map]
  refine List.map_congr_left (fun o _ => ?_)
  by_cases h : o.name = target <;> simp [h]

/-- Counterexample for C3: in a document whose only visible object is
`"wall"`, capturing `"job"` with an exception raised during the capture
exits with `"job"` visible and `"wall"` hidden — the prior visibility is not
restored on the exception exit path. -/
theorem makePicture_exception_skips_restore :
    exitState (makePicture "/out" [⟨"job", false⟩, ⟨"wall", true⟩]
        "job" "baseimage" true) =
      [⟨"job", true⟩, ⟨"wall", false⟩] ∧
    exitState (makePicture "/out" [⟨"job", false⟩, ⟨"wall", true⟩]
        "job" "baseimage" true) ≠
      [⟨"job", false⟩, ⟨"wall", true⟩] := by
  constructor
  · rfl
  · decide

/-- Claim C3 (amended): in a document whose object names are distinct, the
state handed to the viewport capture has exactly the target visible, and on
the normal (non-raising) exit path `__makePicture` restores every object's
`Visibility` to its prior value — the final document equals the initial one
and the transparent-image path is returned.  An exception during the capture
instead propagates without restoration (see the counterexample). -/
theorem makePicture_restores_on_normal_exit (outputpath : String)
    (doc : List DocObj) (target imageName : String)
    (h : (doc.map DocObj.name).Nodup) :
    (∀ o ∈ captureState doc target, o.Visibility = true ↔ o.name = target) ∧
    makePicture outputpath doc target imageName false =
      Except.ok (doc, outputpath ++ "/" ++ imageName ++ "_t.png") := by
  have hinj : ∀ o₁ ∈ doc, ∀ o₂ ∈ doc, o₁.name = o₂.name → o₁ = o₂ :=
    List.inj_on_of_nodup_map h
  constructor
  · intro o ho
    rw [captureState_eq] at ho
    obtain ⟨o', _, rfl⟩ := List.mem_map.mp ho
    by_cases hn : o'.name = target <;> simp [hn]
  · unfold makePicture
    simp only [if_neg (Bool.false_ne_true)]
    rw [captureState_eq, setVis_map_name, List.map_map, restore_foldl,
      List.map_map]
    refine congrArg (fun d => Except.ok (d, _)) ?_
    have : ∀ o ∈ doc,
        ((fun o => if o.name ∈ (doc.filter (fun o => o.Visibility)).map
              DocObj.name then (⟨o.name, true⟩ : DocObj) else o) ∘
         (fun o => if o.name = target then (⟨o.name, false⟩ : DocObj) else o) ∘
         (fun o => if o.name = target then (⟨o.name, true⟩ : DocObj)
                   else ⟨o.name, false⟩)) o = o := by
      intro o ho
      obtain ⟨n, vis⟩ := o
      have hmem : n ∈ (doc.filter (fun o => o.Visibility)).map
          DocObj.name ↔ vis = true := by
        constructor
        · intro hm
          obtain ⟨o', ho', hname⟩ := List.mem_map.mp hm
          have ho'doc := (List.mem_filter.mp ho').1
          have hvis := (List.mem_filter.mp ho').2
          have heq : o' = ⟨n, vis⟩ := hinj o' ho'doc ⟨n, vis⟩ ho hname
          rw [heq] at hvis
          exact hvis
        · intro hv
          exact List.mem_map.mpr
            ⟨⟨n, vis⟩, List.mem_filter.mpr ⟨ho, hv⟩, rfl⟩
      by_cases hn : n = target <;> by_cases hv : vis = true <;>
        simp [Function.comp, hn, hv, hmem]
      · exact ⟨⟨n, vis⟩, ho, hv, hn⟩
      · intro x hx hxv hxn
        have heq : x = ⟨n, vis⟩ :=
          hinj x hx ⟨n, vis⟩ ho (by rw [hxn]; exact hn.symm)
        rw [heq] at hxv
        exact hv hxv
    calc doc.map _ = doc.map id := List.map_congr_left this
      _ = doc := List.map_id doc

/-- Witness for C3 (amended): a concrete two-object document with distinct
names; only the target is visible during capture, and the normal exit
restores the initial state exactly. -/
theorem makePicture_restores_on_normal_exit_witness :
    (∀ o ∈ captureState [⟨"job", false⟩, ⟨"wall", true⟩] "job",
      o.Visibility = true ↔ o.name = "job") ∧
    makePicture "/out" [⟨"job", false⟩, ⟨"wall", true⟩] "job" "baseimage"
        false =
      Except.ok ([⟨"job", false⟩, ⟨"wall", true⟩], "/out/baseimage_t.png") :=
  makePicture_restores_on_normal_exit "/out" [⟨"job", false⟩, ⟨"wall", true⟩]
    "job" "baseimage" (by decide)

/-! ## Template renderer (`__report`, rendering part) -/

/-- The fixed template skeleton `reportTemplate`, with the eight table
fragments and the job name substituted by `.format(...)`. -/
def reportTemplate (jobname infoTable runTable toolTables stockTable
    outTable coolantTable fixtureTable squawkTable : String) : String :=
  "\n= Setup Report for FreeCAD Job: " ++ jobname ++
  "\n:toc:\n:icons: font\n:imagesdir: \"\"\n:data-uri:\n\n== Part Information\n\n|===\n"
  ++ infoTable ++
  "\n|===\n\n\n== Run Summary\n\n|===\n" ++ runTable ++
  "\n|===\n\n== Rough Stock\n\n|===\n" ++ stockTable ++
  "\n|===\n\n== Tool Data\n\n" ++ toolTables ++
  "\n\n== Output (Gcode)\n\n|===\n" ++ outTable ++
  "\n|===\n\n== Coolant\n\n|===\n" ++ coolantTable ++
  "\n|===\n\n== Fixtures and Workholding\n\n|===\n" ++ fixtureTable ++
  "\n|===\n\n== Squawks\n\n|===\n" ++ squawkTable ++
  "\n|===\n\n"

/-- The rendering part of `__report(self, data)` (everything before the file
write): builds the per-section markup fragments in source order and
substitutes them into the template.  Every `data[...]` subscript is a raw
dict access, so a missing key raises `KeyError` (an `Except.error`), which
propagates out of `__report` — there is no handler in `__report` or in
`Activated`. -/
def renderReport (data : PyDict) : Except String String := do
  -- Part Information section
  let PartLabel := translate "Path_Sanity" "Base Object(s)"
  let SequenceLabel := translate "Path_Sanity" "Job Sequence"
  let JobTypeLabel := translate "Path_Sanity" "Job Type"
  let CADLabel := translate "Path_Sanity" "CAD File Name"
  let LastSaveLabel := translate "Path_Sanity" "Last Save Date"
  let CustomerLabel := translate "Path_Sanity" "Customer"
  let DesignerLabel := translate "Path_Sanity" "Designer"
  let d ← getDict data "designData"
  let b ← getDict data "baseData"
  let jobname ← getStr d "JobLabel"
  let bases ← getDict b "bases"
  let basestable ← bases.foldlM (fun acc kv => do
      let v ← asStr kv.2
      pure (acc ++ "! " ++ kv.1 ++ " ! " ++ v ++ "\n")) "!===\n"
  let basestable := basestable ++ "!==="
  let infoTable := "|*" ++ PartLabel ++ "* a| " ++ basestable ++ " .7+a|" ++
    "image::" ++ (← getStr b "baseimage") ++ "[" ++ PartLabel ++ "]\n"
  let infoTable := infoTable ++ "|*" ++ SequenceLabel ++ "*|" ++
    (← getStr d "Sequence")
  let infoTable := infoTable ++ "|*" ++ JobTypeLabel ++ "*|" ++
    (← getStr d "JobType")
  let infoTable := infoTable ++ "|*" ++ CADLabel ++ "*|" ++
    (← getStr d "FileName")
  let infoTable := infoTable ++ "|*" ++ LastSaveLabel ++ "*|" ++
    (← getStr d "LastModifiedDate")
  let infoTable := infoTable ++ "|*" ++ CustomerLabel ++ "*|" ++
    (← getStr d "Customer")
  let infoTable := infoTable ++ "|*" ++ DesignerLabel ++ "*|" ++
    (← getStr d "Designer")
  -- Run Summary section
  let opLabel := translate "Path_Sanity" "Operation"
  let zMinLabel := translate "Path_Sanity" "Minimum Z Height"
  let zMaxLabel := translate "Path_Sanity" "Maximum Z Height"
  let cycleTimeLabel := translate "Path_Sanity" "Cycle Time"
  let jobTotalLabel := translate "Path_Sanity" "TOTAL JOB"
  let d ← getDict data "runData"
  let runTable := "|*" ++ opLabel ++ "*|*" ++ zMinLabel ++ "*|*" ++
    zMaxLabel ++ "*|*" ++ cycleTimeLabel ++ "*\n"
  let items ← getList d "items"
  let runTable ← items.foldlM (fun acc iv => do
      let i ← asDict iv
      let acc := acc ++ "|" ++ pyFormat (← pyGet i "opName")
      let acc := acc ++ "|" ++ pyFormat (← pyGet i "minZ")
      let acc := acc ++ "|" ++ pyFormat (← pyGet i "maxZ")
      pure (acc ++ "|" ++ pyFormat (← pyGet i "cycleTime"))) runTable
  let runTable := runTable ++ "|*" ++ jobTotalLabel ++ "* |" ++
    pyFormat (← pyGet d "jobMinZ") ++ " |" ++
    pyFormat (← pyGet d "jobMaxZ") ++ " |" ++
    pyFormat (← pyGet d "cycletotal")
  -- Tool Data section
  let toolLabel := translate "Path_Sanity" "Tool Number"
  let descriptionLabel := translate "Path_Sanity" "Description"
  let manufLabel := translate "Path_Sanity" "Manufacturer"
  let partNumberLabel := translate "Path_Sanity" "Part Number"
  let urlLabel := translate "Path_Sanity" "URL"
  let inspectionNotesLabel := translate "Path_Sanity" "Inspection Notes"
  let tcLabel := translate "Path_Sanity" "Tool Controller"
  let feedLabel := translate "Path_Sanity" "Feed Rate"
  let speedLabel := translate "Path_Sanity" "Spindle Speed"
  let shapeLabel := translate "Path_Sanity" "Tool Shape"
  let diameterLabel := translate "Path_Sanity" "Tool Diameter"
  let d ← getDict data "toolData"
  let toolTables ← d.foldlM (fun acc kv => do
      let key := kv.1
      let value ← asDict kv.2
      let acc := acc ++ "=== " ++ toolLabel ++ ": T" ++ key ++ "\n"
      let acc := acc ++ "|===\n"
      let acc := acc ++ "|*" ++ descriptionLabel ++ "*|" ++
        (← getStr value "description") ++ " a|" ++ "image::" ++
        (← getStr value "imagepath") ++ "[" ++ key ++ "]\n"
      let acc := acc ++ "|*" ++ manufLabel ++ "* 2+|" ++
        (← getStr value "manufacturer") ++ "\n"
      let acc := acc ++ "|*" ++ partNumberLabel ++ "* 2+|" ++
        (← getStr value "partNumber") ++ "\n"
      let acc := acc ++ "|*" ++ urlLabel ++ "* 2+|" ++
        (← getStr value "url") ++ "\n"
      let acc := acc ++ "|*" ++ inspectionNotesLabel ++ "* 2+|" ++
        (← getStr value "inspectionNotes") ++ "\n"
      let acc := acc ++ "|*" ++ shapeLabel ++ "* 2+|" ++
        (← getStr value "shape") ++ "\n"
      let acc := acc ++ "|*" ++ diameterLabel ++ "* 2+|" ++
        (← getStr value "diameter") ++ "\n"
      let acc := acc ++ "|===\n"
      let acc := acc ++ "|===\n"
      let acc := acc ++ "|*" ++ opLabel ++ "*|*" ++ tcLabel ++ "*|*" ++
        feedLabel ++ "*|*" ++ speedLabel ++ "*\n"
      let ops ← asList (← pyGet value "ops")
      let acc ← ops.foldlM (fun a ov => do
          let o ← asDict ov
          pure (a ++ "|" ++ (← getStr o "Operation") ++ "|" ++
            (← getStr o "ToolController") ++ "|" ++ (← getStr o "Feed") ++
            "|" ++ (← getStr o "Speed") ++ "\n")) acc
      let acc := acc ++ "|===\n"
      pure (acc ++ "\n")) ""
  -- Rough Stock section
  let xDimLabel := translate "Path_Sanity" "X Size"
  let yDimLabel := translate "Path_Sanity" "Y Size"
  let zDimLabel := translate "Path_Sanity" "Z Size"
  let materialLabel := translate "Path_Sanity" "Material"
  let d ← getDict data "stockData"
  let stockTable := "|*" ++ materialLabel ++ "*|" ++
    (← getStr d "material") ++ " .4+a|" ++ "image::" ++
    (← getStr d "stockImage") ++ "[stock]\n"
  let stockTable := stockTable ++ "|*" ++ xDimLabel ++ "*|" ++
    (← getStr d "xLen")
  let stockTable := stockTable ++ "|*" ++ yDimLabel ++ "*|" ++
    (← getStr d "yLen")
  let stockTable := stockTable ++ "|*" ++ zDimLabel ++ "*|" ++
    (← getStr d "zLen")
  -- Fixture section
  let offsetsLabel := translate "Path_Sanity" "Work Offsets"
  let orderByLabel := translate "Path_Sanity" "Order By"
  let datumLabel := translate "Path_Sanity" "Part Datum"
  let d ← getDict data "fixtureData"
  let fixtureTable := "|*" ++ offsetsLabel ++ "*|" ++
    (← getStr d "fixtures") ++ "\n"
  let fixtureTable := fixtureTable ++ "|*" ++ orderByLabel ++ "*|" ++
    (← getStr d "orderBy")
  let fixtureTable := fixtureTable ++ "|*" ++ datumLabel ++ "* a|image::" ++
    (← getStr d "datumImage") ++ "[]"
  -- Coolant section
  let coolantLabel := translate "Path_Sanity" "Coolant Mode"
  let cd ← getDict data "coolantData"
  let d ← asList (← pyGet cd "items")
  let coolantTable := "|*" ++ opLabel ++ "*|*" ++ coolantLabel ++ "*\n"
  let coolantTable ← d.foldlM (fun acc iv => do
      let i ← asDict iv
      let acc := acc ++ "|" ++ (← getStr i "opName")
      -- NOTE the capitalized key: `__coolantData` stores "coolantMode"
      pure (acc ++ "|" ++ (← getStr i "CoolantMode"))) coolantTable
  -- Output section
  let d ← getDict data "outputData"
  let gcodeFileLabel := translate "Path_Sanity" "Gcode File"
  let lastpostLabel := translate "Path_Sanity" "Last Post Process Date"
  let stopsLabel := translate "Path_Sanity" "Stops"
  let programmerLabel := translate "Path_Sanity" "Programmer"
  let machineLabel := translate "Path_Sanity" "Machine"
  let postLabel := translate "Path_Sanity" "Postprocessor"
  let flagsLabel := translate "Path_Sanity" "Post Processor Flags"
  let fileSizeLabel := translate "Path_Sanity" "File Size (kbs)"
  let lineCountLabel := translate "Path_Sanity" "Line Count"
  let outTable := "|*" ++ gcodeFileLabel ++ "*|" ++
    (← getStr d "lastgcodefile") ++ "\n"
  let outTable := outTable ++ "|*" ++ lastpostLabel ++ "*|" ++
    (← getStr d "lastpostprocess") ++ "\n"
  let outTable := outTable ++ "|*" ++ stopsLabel ++ "*|" ++
    (← getStr d "optionalstops") ++ "\n"
  let outTable := outTable ++ "|*" ++ programmerLabel ++ "*|" ++
    (← getStr d "programmer") ++ "\n"
  let outTable := outTable ++ "|*" ++ machineLabel ++ "*|" ++
    (← getStr d "machine") ++ "\n"
  let outTable := outTable ++ "|*" ++ postLabel ++ "*|" ++
    (← getStr d "postprocessor") ++ "\n"
  let outTable := outTable ++ "|*" ++ flagsLabel ++ "*|" ++
    (← getStr d "postprocessorFlags") ++ "\n"
  let outTable := outTable ++ "|*" ++ fileSizeLabel ++ "*|" ++
    (← getStr d "filesize") ++ "\n"
  let outTable := outTable ++ "|*" ++ lineCountLabel ++ "*|" ++
    (← getStr d "linecount") ++ "\n"
  -- Squawk section
  let noteLabel := translate "Path_Sanity" "Note"
  let operatorLabel := translate "Path_Sanity" "Operator"
  let dateLabel := translate "Path_Sanity" "Date"
  let squawkTable := "|*" ++ noteLabel ++ "*|*" ++ operatorLabel ++ "*|*" ++
    dateLabel ++ "*\n"
  let sqd ← getDict data "squawkData"
  let sitems ← asList (← pyGet sqd "items")
  let squawkTable ← sitems.foldlM (fun acc iv => do
      let i ← asDict iv
      let acc := acc ++ "a|" ++ pyFormat (← pyGet i "squawkType") ++ ": " ++
        pyFormat (← pyGet i "Note")
      let acc := acc ++ "|" ++ pyFormat (← pyGet i "Operator")
      let acc := acc ++ "|" ++ pyFormat (← pyGet i "Date")
      pure (acc ++ "\n")) squawkTable
  -- merge template and custom markup
  pure (reportTemplate jobname infoTable runTable toolTables stockTable
    outTable coolantTable fixtureTable squawkTable)

/-! ## Publisher (`__report`, file write and converter invocation) -/

/-- What the publishing half of `__report` leaves behind: the files written
by this code (path and contents) and the value of `reporthtml` returned. -/
structure PublishResult where
  writtenFiles : List (String × String)
  html : Option String
deriving DecidableEq

/-- The publishing half of `__report`: write the rendered markup to
`outputpath + "/setupreport.asciidoc"`, then run
`os.system("asciidoctor <raw> -o <html>")`.  `systemResult` is the exit
status returned by `os.system` (`none` models the call itself raising, which
is caught and printed).  When `str(result) == "32512"` (the shell's
command-not-found sentinel) the HTML path is replaced by `None`; in every
case the markup file has already been written and is retained. -/
def publishReport (outputpath report : String) (systemResult : Option Int) :
    PublishResult :=
  let reportraw := outputpath ++ "/setupreport.asciidoc"
  let reporthtml := outputpath ++ "/setupreport.html"
  let written := [(reportraw, report)]
  let reporthtml : Option String :=
    match systemResult with
    | some result =>
        if toString result = "32512" then none else some reporthtml
    | none => some reporthtml
  { writtenFiles := written, html := reporthtml }

/-- `__report(self, data)` in full: render, then publish.  A `KeyError`
raised while rendering propagates before anything is written. -/
def report (outputpath : String) (data : PyDict)
    (systemResult : Option Int) : Except String PublishResult := do
  let md ← renderReport data
  pure (publishReport outputpath md systemResult)

/-! ## Host operation objects and `__coolantData` -/

/-- One operation of `obj.Operations.Group`, restricted to the attributes
this module reads.  `tcName` is the internal name of the operation's
`ToolController` (object identity `op.ToolController is TC` is name
equality, names being unique in a document); `eCoolantMode = none` models
the attribute `eCoolantMode` being absent, in which case reading it raises
`AttributeError`. -/
structure Op where
  Label : String
  Active : Bool
  tcName : String
  hasCoolantMode : Bool
  eCoolantMode : Option String
  isStopProxy : Bool
  Stop : Bool
deriving DecidableEq

/-- `__coolantData(self, obj)`: builds `{"items": [...]}` with one dict per
operation; an operation that has a `CoolantMode` attribute contributes
`{"opName": ..., "coolantMode": op.eCoolantMode}` (note the lowercase key),
otherwise `{"opName": ..., "coolantMode": "N/A"}`.  Any exception (for
instance reading a missing `eCoolantMode`) is caught and stored under
`"errors"`, keeping the items accumulated so far. -/
def coolantData (ops : List Op) : PyDict :=
  let rec go (acc : List PyVal) : List Op → List PyVal × Bool
    | [] => (acc, false)
    | op :: rest =>
      let opLabel := if op.Active then op.Label else op.Label ++ " (INACTIVE)"
      if op.hasCoolantMode then
        match op.eCoolantMode with
        | some m =>
            go (acc ++ [PyVal.dict [("opName", PyVal.str opLabel),
                                    ("coolantMode", PyVal.str m)]]) rest
        | none => (acc, true)
      else
        go (acc ++ [PyVal.dict [("opName", PyVal.str opLabel),
                                ("coolantMode", PyVal.str "N/A")]]) rest
  match go [] ops with
  | (items, false) => [("items", PyVal.list items)]
  | (items, true) =>
      [("items", PyVal.list items), ("errors", PyVal.str "AttributeError")]

/-! ## Concrete report data

A job with a single active profiling operation that has no `CoolantMode`
attribute.  The section dictionaries other than `coolantData` are a
representative well-formed snapshot, keyed exactly as the summarizers key
them and ordered as `__summarize` inserts them. -/

def op1 : Op :=
  { Label := "Profile", Active := true, tcName := "TC",
    hasCoolantMode := false, eCoolantMode := none,
    isStopProxy := false, Stop := false }

def sampleDesign : PyVal := PyVal.dict
  [("FileName", PyVal.str "part.FCStd"),
   ("LastModifiedDate", PyVal.str "2020-01-01"),
   ("Customer", PyVal.str "ACME"),
   ("Designer", PyVal.str "dev"),
   ("JobNotes", PyVal.str ""),
   ("JobLabel", PyVal.str "Job"),
   ("Sequence", PyVal.str "1 of 1"),
   ("JobType", PyVal.str "2.5D Milling")]

def sampleBase : PyVal := PyVal.dict
  [("baseimage", PyVal.str "/out/baseimage_t.png"),
   ("bases", PyVal.dict [("Body", PyVal.str "1")])]

def sampleRun : PyVal := PyVal.dict
  [("cycletotal", PyVal.str "60 s"),
   ("jobMinZ", PyVal.str "0 mm"),
   ("jobMaxZ", PyVal.str "5 mm"),
   ("items", PyVal.list [])]

def sampleStock : PyVal := PyVal.dict
  [("xLen", PyVal.str "10 mm"),
   ("yLen", PyVal.str "10 mm"),
   ("zLen", PyVal.str "10 mm"),
   ("material", PyVal.str "Not Specified"),
   ("stockImage", PyVal.str "/out/stockImage_t.png")]

def sampleFixture : PyVal := PyVal.dict
  [("fixtures", PyVal.str "[G54]"),
   ("orderBy", PyVal.str "Fixture"),
   ("datumImage", PyVal.str "/out/origin_t.png")]

def sampleOutput : PyVal := PyVal.dict
  [("lastpostprocess", PyVal.str "2020-01-02"),
   ("lastgcodefile", PyVal.str ""),
   ("optionalstops", PyVal.str "False"),
   ("programmer", PyVal.str ""),
   ("machine", PyVal.str ""),
   ("postprocessor", PyVal.str "grbl"),
   ("postprocessorFlags", PyVal.str "--no-show-editor"),
   ("filesize", PyVal.str "0.0"),
   ("linecount", PyVal.str "0")]

def sampleSquawk : PyVal := PyVal.dict [("items", PyVal.list [])]

/-- The assembled section mapping for the one-operation job, with the
coolant section exactly as `__coolantData` produces it. -/
def sanityData : PyDict :=
  [("baseData", sampleBase),
   ("designData", sampleDesign),
   ("toolData", PyVal.dict []),
   ("runData", sampleRun),
   ("coolantData", PyVal.dict (coolantData [op1])),
   ("outputData", sampleOutput),
   ("fixtureData", sampleFixture),
   ("stockData", sampleStock),
   ("squawkData", sampleSquawk)]

/-- The same mapping with the coolant items keyed `"CoolantMode"` as the
renderer expects: a fully assembled mapping on which rendering succeeds. -/
def goodData : PyDict :=
  [("baseData", sampleBase),
   ("designData", sampleDesign),
   ("toolData", PyVal.dict []),
   ("runData", sampleRun),
   ("coolantData", PyVal.dict [("items", PyVal.list
      [PyVal.dict [("opName", PyVal.str "Profile"),
                   ("CoolantMode", PyVal.str "None")]])]),
   ("outputData", sampleOutput),
   ("fixtureData", sampleFixture),
   ("stockData", sampleStock),
   ("squawkData", sampleSquawk)]

/-- On the fully assembled mapping the renderer runs to completion. -/
theorem renderReport_goodData_ok : (renderReport goodData).isOk = true := by
  decide

/-! ## Claims C2, C4, C8 -/

/-- Claim C2 (code bug): for the job with one operation, the coolant section
data produced by `__coolantData` stores the mode under the key
`"coolantMode"`, while `__report` reads `i["CoolantMode"]`; rendering
therefore raises `KeyError` instead of completing, and the unhandled
exception propagates out of `__report` (and `Activated`) before the report
file is written. -/
theorem report_coolant_keyerror :
    renderReport sanityData = Except.error "KeyError: CoolantMode" ∧
    report "/out" sanityData (some 0) =
      Except.error "KeyError: CoolantMode" := by
  exact ⟨rfl, rfl⟩

/-- Claim C4: whenever `os.system` returns the command-not-found sentinel
32512 (the converter binary is absent), `__report` still writes and retains
the raw markup at `<outputpath>/setupreport.asciidoc` and the returned HTML
path is `None`. -/
theorem report_converter_absent (outputpath rendered : String) :
    (publishReport outputpath rendered (some 32512)).html = none ∧
    (outputpath ++ "/setupreport.asciidoc", rendered) ∈
      (publishReport outputpath rendered (some 32512)).writtenFiles := by
  have h32 : toString (32512 : Int) = "32512" := by decide
  constructor
  · simp [publishReport, h32]
  · simp [publishReport]

/-- Claim C8: the rendering step of `__report` is deterministic — two calls
on the same fully assembled section mapping produce byte-identical markup
text. -/
theorem renderReport_deterministic (data₁ data₂ : PyDict)
    (h : data₁ = data₂) : renderReport data₁ = renderReport data₂ := by
  rw [h]

/-- Witness for C8: two calls on the concrete fully assembled mapping agree. -/
theorem renderReport_deterministic_witness :
    goodData = goodData ∧ renderReport goodData = renderReport goodData :=
  ⟨rfl, renderReport_deterministic goodData goodData rfl⟩

/-! ## Tool summarizer (`__toolData`) -/

/-- The tool attributes read by `__toolData`.  `hasBitBody` models
`hasattr(TC.Tool, "BitBody")`; string-rendered host values (`Diameter`)
are carried as the strings `str(...)` would produce. -/
structure Tool where
  hasBitBody : Bool
  BitShape : String
  Label : String
  DiameterStr : String
  ShapeName : String
deriving DecidableEq

/-- The tool-controller attributes read by `__toolData`.  `HorizFeedStr` and
`SpindleSpeedStr` carry `str(TC.HorizFeed)` / `str(TC.SpindleSpeed)`;
`HorizFeedValue` and `SpindleSpeed` are the numeric values compared against
the exact literal `0.0`. -/
structure ToolController where
  Name : String
  Label : String
  ToolNumber : Int
  Tool : Tool
  HorizFeedStr : String
  HorizFeedValue : ℚ
  SpindleSpeed : ℚ
  SpindleSpeedStr : String
deriving DecidableEq

/-- The state `__toolData` threads: the per-tool-number `data` dict under
construction and the process-wide squawk list. -/
structure ToolDataState where
  data : PyDict
  squawks : List SquawkItem
deriving Inhabited

/-- The test `bitshape not in ["", TC.Tool.BitShape]` on the value returned
by `tooldata.setdefault("BitShape", "")` (Python `in` compares with `==`;
a non-string stored value would equal neither list element). -/
def bitShapeMismatch (bitshapeV : PyVal) (shape : String) : Bool :=
  match bitshapeV with
  | PyVal.str s => !(s == "" || s == shape)
  | _ => true

/-- A stored `PyVal` used as a dict (always a dict at the use sites). -/
def pyAsDict : PyVal → PyDict
  | PyVal.dict d => d
  | _ => []

/-- A stored `PyVal` used as a list (always a list at the use sites). -/
def pyAsList : PyVal → List PyVal
  | PyVal.list l => l
  | _ => []

/-- The body of the `for TC in obj.ToolController` loop of `__toolData`.

A controller whose tool has no `BitBody` attribute is skipped.  Otherwise
the per-number dict is fetched with `data.setdefault(str(TC.ToolNumber),
{})`, the duplicate-shape check reads `tooldata.setdefault("BitShape", "")`
— note that the shape itself is stored under the lowercase key
`"bitShape"`, so the `"BitShape"` entry always keeps its default `""` — an
ERROR squawk is raised when the check fires, zero feed and zero spindle
speed each raise a WARNING squawk, the thumbnail is written to
`<outputpath>/T<n>.png`, the operations using the controller are collected
under `"ops"`, and an unused controller raises a final WARNING squawk. -/
def processTC (classDefDate outputpath : String) (opsGroup : List Op)
    (st : ToolDataState) (TC : ToolController) : ToolDataState :=
  if TC.Tool.hasBitBody = false then st  -- skip old-style tools
  else
    let sd := dictSetdefault st.data (toString TC.ToolNumber) (PyVal.dict [])
    let tooldata := pyAsDict sd.1
    let data := sd.2
    let bd := dictSetdefault tooldata "BitShape" (PyVal.str "")
    let bitshapeV := bd.1
    let tooldata := bd.2
    let squawks :=
      if bitShapeMismatch bitshapeV TC.Tool.BitShape then
        squawk classDefDate st.squawks "PathSanity"
          ("Tool number " ++ toString TC.ToolNumber ++
            " used by multiple tools") none "ERROR"
      else st.squawks
    let tooldata := dictSet tooldata "bitShape" (PyVal.str TC.Tool.BitShape)
    let tooldata := dictSet tooldata "description" (PyVal.str TC.Tool.Label)
    let tooldata := dictSet tooldata "manufacturer" (PyVal.str "")
    let tooldata := dictSet tooldata "url" (PyVal.str "")
    let tooldata := dictSet tooldata "inspectionNotes" (PyVal.str "")
    let tooldata := dictSet tooldata "diameter" (PyVal.str TC.Tool.DiameterStr)
    let tooldata := dictSet tooldata "shape" (PyVal.str TC.Tool.ShapeName)
    let tooldata := dictSet tooldata "partNumber" (PyVal.str "")
    let imagepath := outputpath ++ "/T" ++ toString TC.ToolNumber ++ ".png"
    let tooldata := dictSet tooldata "feedrate" (PyVal.str TC.HorizFeedStr)
    let squawks :=
      if TC.HorizFeedValue = 0 then
        squawk classDefDate squawks "PathSanity"
          ("Tool Controller " ++ apos ++ TC.Label ++ apos ++
            " has no feedrate") none "WARNING"
      else squawks
    let tooldata :=
      dictSet tooldata "spindlespeed" (PyVal.str TC.SpindleSpeedStr)
    let squawks :=
      if TC.SpindleSpeed = 0 then
        squawk classDefDate squawks "PathSanity"
          ("Tool Controller " ++ apos ++ TC.Label ++ apos ++
            " has no spindlespeed") none "WARNING"
      else squawks
    let tooldata := dictSet tooldata "imagepath" (PyVal.str imagepath)
    -- for op in obj.Operations.Group: if op.ToolController is TC: ...
    let matching := opsGroup.filter (fun op => op.tcName == TC.Name)
    let tooldata :=
      let od := dictSetdefault tooldata "ops" (PyVal.list [])
      if matching.isEmpty then od.2
      else
        let cur := pyAsList od.1
        dictSet od.2 "ops" (PyVal.list (cur ++ matching.map (fun op =>
          PyVal.dict [("Operation", PyVal.str op.Label),
                      ("ToolController", PyVal.str TC.Name),
                      ("Feed", PyVal.str TC.HorizFeedStr),
                      ("Speed", PyVal.str TC.SpindleSpeedStr)])))
    let squawks :=
      if matching.isEmpty then
        squawk classDefDate squawks "PathSanity"
          ("Tool Controller " ++ apos ++ TC.Label ++ apos ++
            " is not used") none "WARNING"
      else squawks
    { data := dictSet data (toString TC.ToolNumber) (PyVal.dict tooldata),
      squawks := squawks }

/-- `__toolData(self, obj)`: iterate the job's tool controllers starting
from a fresh `data = {}` and the current squawk list. -/
def toolData (classDefDate outputpath : String)
    (TCs : List ToolController) (opsGroup : List Op)
    (squawks : List SquawkItem) : ToolDataState :=
  TCs.foldl (processTC classDefDate outputpath opsGroup) ⟨[], squawks⟩

/-- The squawk records appended while processing one tool controller. -/
def appendedSquawks (classDefDate outputpath : String) (opsGroup : List Op)
    (st : ToolDataState) (TC : ToolController) : List SquawkItem :=
  (processTC classDefDate outputpath opsGroup st TC).squawks.drop
    st.squawks.length

/-! ## Output summarizer (`__outputData`) -/

/-- The job attributes read by `__outputData`. -/
structure JobOutput where
  LastPostProcessDate : String
  LastPostProcessOutput : String
  PostProcessor : String
  PostProcessorArgs : String
deriving DecidableEq

/-- `__outputData(self, obj)`.  `fs` models the file system as a map from
path to `(os.path.getsize(path), number of lines)`; a path absent from `fs`
makes `os.path.getsize` raise, which the summarizer's catch-all stores under
`"errors"`.  When `LastPostProcessOutput` is the empty string the summarizer
reports `str(0.0) = "0.0"` and `str(0) = "0"` and appends one advisory with
the default severity; otherwise it reports the file's size and line count
and appends nothing. -/
def outputData (classDefDate : String) (fs : List (String × Nat × Nat))
    (ops : List Op) (obj : JobOutput) (squawks : List SquawkItem) :
    PyDict × List SquawkItem :=
  let data : PyDict := []
  let data := dictSet data "lastpostprocess" (PyVal.str obj.LastPostProcessDate)
  let data := dictSet data "lastgcodefile" (PyVal.str obj.LastPostProcessOutput)
  let data := dictSet data "optionalstops" (PyVal.str "False")
  let data := dictSet data "programmer" (PyVal.str "")
  let data := dictSet data "machine" (PyVal.str "")
  let data := dictSet data "postprocessor" (PyVal.str obj.PostProcessor)
  let data := dictSet data "postprocessorFlags" (PyVal.str obj.PostProcessorArgs)
  -- for op in obj.Operations.Group: a Stop operation with Stop == True
  let data :=
    if ops.any (fun op => op.isStopProxy && op.Stop) then
      dictSet data "optionalstops" (PyVal.str "True")
    else data
  if obj.LastPostProcessOutput = "" then
    let data := dictSet data "filesize" (PyVal.str "0.0")
    let data := dictSet data "linecount" (PyVal.str "0")
    (data, squawk classDefDate squawks "PathSanity"
      "The Job has not been post-processed" none "NOTE")
  else
    match fs.lookup obj.LastPostProcessOutput with
    | some (size, lines) =>
        let data := dictSet data "filesize" (PyVal.str (toString size))
        let data := dictSet data "linecount" (PyVal.str (toString lines))
        (data, squawks)
    | none =>
        (dictSet data "errors" (PyVal.str "FileNotFoundError"), squawks)

/-! ## Claims C1, C6, C7 -/

/-- A 6 mm endmill bound to tool number 1. -/
def endmillTC : ToolController :=
  { Name := "TC1", Label := "TC1: Endmill",
    ToolNumber := 1,
    Tool := { hasBitBody := true, BitShape := "endmill.fcstd",
              Label := "6mm Endmill", DiameterStr := "6.00 mm",
              ShapeName := "endmill" },
    HorizFeedStr := "100.00 mm/s", HorizFeedValue := 100,
    SpindleSpeed := 5000, SpindleSpeedStr := "5000.0" }

/-- A ballend tool bound to the same tool number 1 with a different
`BitShape`. -/
def ballendTC : ToolController :=
  { Name := "TC2", Label := "TC2: Ballend",
    ToolNumber := 1,
    Tool := { hasBitBody := true, BitShape := "ballend.fcstd",
              Label := "6mm Ballend", DiameterStr := "6.00 mm",
              ShapeName := "ballend" },
    HorizFeedStr := "100.00 mm/s", HorizFeedValue := 100,
    SpindleSpeed := 5000, SpindleSpeedStr := "5000.0" }

/-- Claim C1 (code bug): two tool controllers share tool number 1 and their
tools have different `BitShape` values, yet running `__toolData` over them
appends no ERROR-severity squawk at all — the duplicate check reads the
`"BitShape"` entry, which `setdefault` pins to `""` because the shape is
stored under the distinct lowercase key `"bitShape"`, so the mismatch branch
is unreachable. -/
theorem toolData_shape_conflict_no_error_squawk :
    endmillTC.ToolNumber = ballendTC.ToolNumber ∧
    endmillTC.Tool.BitShape ≠ ballendTC.Tool.BitShape ∧
    ((toolData "d0" "/out" [endmillTC, ballendTC] [] []).squawks.filter
        (fun i => i.squawkType == "ERROR")) = [] := by
  refine ⟨rfl, by decide, by decide⟩

/-- A tool controller with zero feed rate and zero spindle speed. -/
def zeroTC : ToolController :=
  { Name := "TC3", Label := "TC3: Chamfer",
    ToolNumber := 3,
    Tool := { hasBitBody := true, BitShape := "chamfer.fcstd",
              Label := "Chamfer", DiameterStr := "10.00 mm",
              ShapeName := "chamfer" },
    HorizFeedStr := "0.00 mm/s", HorizFeedValue := 0,
    SpindleSpeed := 0, SpindleSpeedStr := "0.0" }

/-- An operation that uses `zeroTC`. -/
def opUsingZeroTC : Op :=
  { Label := "Chamfer edges", Active := true, tcName := "TC3",
    hasCoolantMode := false, eCoolantMode := none,
    isStopProxy := false, Stop := false }

/-- Counterexample for C6: processing a zero-feed, zero-spindle-speed tool
controller that no operation uses appends three WARNING advisories (no
feedrate, no spindlespeed, not used) — not exactly two. -/
theorem processTC_zero_feed_speed_not_two_warnings :
    ((appendedSquawks "d0" "/out" [] ⟨[], []⟩ zeroTC).filter
        (fun i => i.squawkType == "WARNING")).length ≠ 2 := by
  decide

/-- Claim C6 (amended): processing a tool controller whose horizontal feed
value is `0.0` and whose spindle speed is `0.0` appends exactly two
WARNING-severity advisories — one for the missing feedrate and one for the
missing spindle speed, each quoting the controller's label — provided at
least one operation uses the controller; an unused controller additionally
receives a third "is not used" WARNING. -/
theorem processTC_zero_feed_speed_warnings (classDefDate outputpath : String)
    (opsGroup : List Op) (st : ToolDataState) (TC : ToolController)
    (hbb : TC.Tool.hasBitBody = true)
    (hf : TC.HorizFeedValue = 0) (hs : TC.SpindleSpeed = 0)
    (hused : (opsGroup.filter (fun op => op.tcName == TC.Name)).isEmpty
      = false) :
    (appendedSquawks classDefDate outputpath opsGroup st TC).filter
        (fun i => i.squawkType == "WARNING") =
      [⟨classDefDate, "PathSanity",
        "Tool Controller " ++ apos ++ TC.Label ++ apos ++ " has no feedrate",
        "WARNING"⟩,
       ⟨classDefDate, "PathSanity",
        "Tool Controller " ++ apos ++ TC.Label ++ apos ++
          " has no spindlespeed",
        "WARNING"⟩] := by
  unfold appendedSquawks processTC
  rw [hbb, hf, hs]
  simp only [hused, squawk, validSquawkTypes, Bool.false_eq_true, if_false,
    Bool.true_eq_false, List.mem_cons, List.mem_singleton, List.not_mem_nil,
    or_false, if_true, reduceCtorEq]
  split <;>
    simp [List.append_assoc, List.drop_left, List.filter_append,
      List.filter_cons, SquawkItem.mk.injEq]

/-- Witness for C6 (amended): the zero-feed, zero-speed controller used by
one operation gets exactly the two WARNING advisories quoting its label. -/
theorem processTC_zero_feed_speed_warnings_witness :
    (appendedSquawks "d0" "/out" [opUsingZeroTC] ⟨[], []⟩ zeroTC).filter
        (fun i => i.squawkType == "WARNING") =
      [⟨"d0", "PathSanity",
        "Tool Controller " ++ apos ++ "TC3: Chamfer" ++ apos ++
          " has no feedrate", "WARNING"⟩,
       ⟨"d0", "PathSanity",
        "Tool Controller " ++ apos ++ "TC3: Chamfer" ++ apos ++
          " has no spindlespeed", "WARNING"⟩] :=
  processTC_zero_feed_speed_warnings "d0" "/out" [opUsingZeroTC] ⟨[], []⟩
    zeroTC rfl rfl rfl (by decide)

/-- A job that has never been post-processed. -/
def jobNotPosted : JobOutput :=
  { LastPostProcessDate := "", LastPostProcessOutput := "",
    PostProcessor := "grbl", PostProcessorArgs := "" }

/-- A job post-processed to `/tmp/job.nc`, a 2048-byte, 77-line file. -/
def jobPosted : JobOutput :=
  { LastPostProcessDate := "2020-01-02", LastPostProcessOutput := "/tmp/job.nc",
    PostProcessor := "grbl", PostProcessorArgs := "--no-show-editor" }

/-- Claim C7: when `LastPostProcessOutput` is the empty string,
`__outputData` reports `filesize == "0.0"` and `linecount == "0"` and
appends exactly one advisory (default NOTE severity) that the job has not
been post-processed; when it names an existing file, the summarizer reports
that file's size and line count and appends no advisory. -/
theorem outputData_not_postprocessed (classDefDate : String)
    (fs : List (String × Nat × Nat)) (ops : List Op) (obj : JobOutput)
    (squawks : List SquawkItem) :
    (obj.LastPostProcessOutput = "" →
      (outputData classDefDate fs ops obj squawks).1.lookup "filesize" =
          some (PyVal.str "0.0") ∧
      (outputData classDefDate fs ops obj squawks).1.lookup "linecount" =
          some (PyVal.str "0") ∧
      (outputData classDefDate fs ops obj squawks).2 =
        squawks ++ [⟨classDefDate, "PathSanity",
          "The Job has not been post-processed", "NOTE"⟩]) ∧
    (∀ size lines, obj.LastPostProcessOutput ≠ "" →
      fs.lookup obj.LastPostProcessOutput = some (size, lines) →
      (outputData classDefDate fs ops obj squawks).1.lookup "filesize" =
          some (PyVal.str (toString size)) ∧
      (outputData classDefDate fs ops obj squawks).1.lookup "linecount" =
          some (PyVal.str (toString lines)) ∧
      (outputData classDefDate fs ops obj squawks).2 = squawks) := by
  constructor
  · intro h
    unfold outputData
    rw [if_pos h]
    by_cases hstop : ops.any (fun op => op.isStopProxy && op.Stop) <;>
      simp [hstop, dictSet, squawk] <;> exact ⟨rfl, rfl⟩
  · intro size lines hne hfs
    unfold outputData
    rw [if_neg hne, hfs]
    by_cases hstop : ops.any (fun op => op.isStopProxy && op.Stop) <;>
      simp [hstop, dictSet] <;> exact ⟨rfl, rfl⟩

/-- Witness for C7: both branches at concrete jobs — the never-posted job
yields `"0.0"`, `"0"` and the single NOTE advisory; the posted job yields
the file's size and line count with no advisory. -/
theorem outputData_not_postprocessed_witness :
    ((outputData "d0" [("/tmp/job.nc", (2048, 77))] [] jobNotPosted []).2 =
      [⟨"d0", "PathSanity", "The Job has not been post-processed", "NOTE"⟩]) ∧
    ((outputData "d0" [("/tmp/job.nc", (2048, 77))] [] jobPosted []).1.lookup
        "filesize" = some (PyVal.str "2048")) :=
  ⟨((outputData_not_postprocessed "d0" [("/tmp/job.nc", (2048, 77))] []
      jobNotPosted []).1 rfl).2.2,
   ((outputData_not_postprocessed "d0" [("/tmp/job.nc", (2048, 77))] []
      jobPosted []).2 2048 77 (by decide) rfl).1⟩

end PathSanity
